import Mathlib

/-!
Verification of the Financial Ledger API with double-entry bookkeeping.

Shallow embedding of the transactional ledger engine of the repository
(`src/main.py`, `src/models.py`, `src/schemas.py`) and proofs of the
specified properties.

Modelling choices:
* `Decimal` amounts (SQL `Numeric(19,4)`) are exact multiples of 10⁻⁴; they
  are modelled as integers `ℤ` counted in units of 10⁻⁴, over which the
  Decimal additions, subtractions and comparisons the engine performs are
  exact (no rounding occurs in the engine).
* The database session is modelled as an explicit `LedgerState` value threaded
  through the handlers; `with db.begin()` commit/rollback semantics become:
  the handler body either returns a new state (commit on normal exit) or an
  error, in which case the pre-state is kept (rollback on exception).
* `HTTPException` outcomes become an `ApiError` inductive; FastAPI/pydantic
  request-body validation (`amount: float = Field(..., gt=0)` in
  `schemas.TransferCreate`) is a wrapper that runs before the handler.
-/

/-- Model of `models.Account` (src/models.py, class Account): id, user_id,
account_type, currency, status.  Timestamps are irrelevant to the claims and
omitted. -/
structure Account where
  id : Nat
  user_id : String
  account_type : String
  currency : String
  status : String
deriving Repr, DecidableEq

/-- The `entry_type` column of `ledger_entry`: the application only ever
writes the strings "debit" and "credit" (src/main.py lines 141, 147, 198,
253), so it is modelled as a two-constructor inductive. -/
inductive EntryType where
  | debit
  | credit
deriving Repr, DecidableEq, BEq

/-- Model of `models.LedgerEntry` (src/models.py, class LedgerEntry). -/
structure LedgerEntry where
  id : Nat
  transaction_id : Nat
  account_id : Nat
  entry_type : EntryType
  amount : ℤ
deriving Repr, DecidableEq

/-- Model of `models.Transaction` (src/models.py, class Transaction). -/
structure Transaction where
  id : Nat
  type : String
  status : String
  amount : ℤ
  currency : String
  description : Option String
deriving Repr, DecidableEq

/-- The database state seen by one request: the three tables plus the
auto-increment counters for the two primary keys the engine generates. -/
structure LedgerState where
  accounts : List Account
  transactions : List Transaction
  entries : List LedgerEntry
  next_transaction_id : Nat
  next_entry_id : Nat
deriving Repr, DecidableEq

/-- Model of `schemas.TransferCreate` (src/schemas.py lines 33-38): the one request
schema shared by the transfer, deposit and withdrawal endpoints. -/
structure TransferCreate where
  source_account_id : Nat
  destination_account_id : Nat
  amount : ℤ
  currency : String
  description : Option String
deriving Repr, DecidableEq

/-- The failure outcomes (`HTTPException` status codes raised in
src/main.py, plus the 422 produced by pydantic validation of the request
body before the handler runs). -/
inductive ApiError where
  | validation_failed    -- 422: pydantic rejects amount ≤ 0 (schemas.py line 36)
  | not_found            -- 404
  | currency_mismatch    -- 400
  | insufficient_funds   -- 403
  | internal_failure     -- 500
deriving Repr, DecidableEq

/-- The loop body of `calculate_account_balance` (src/main.py lines 31-35):
credit entries add their amount, debit entries subtract it. -/
def balance_step (balance : ℤ) (entry : LedgerEntry) : ℤ :=
  match entry.entry_type with
  | .credit => balance + entry.amount
  | .debit => balance - entry.amount

/-- Balance of the entries of one account within an entry list: the query
filter plus the accumulation loop of `calculate_account_balance`. -/
def entries_balance (l : List LedgerEntry) (account_id : Nat) : ℤ :=
  (l.filter (fun e => e.account_id == account_id)).foldl balance_step 0

/-- Embedding of `calculate_account_balance` (src/main.py lines 22-37): derives the
current balance of an account by summing all its ledger entries. -/
def calculate_account_balance (s : LedgerState) (account_id : Nat) : ℤ :=
  entries_balance s.entries account_id

/-- Embedding of the query `db.query(models.Account).filter(...).first()`:
primary-key lookup of an account row. -/
def find_account (s : LedgerState) (account_id : Nat) : Option Account :=
  s.accounts.find? (fun a => a.id == account_id)

/-- The sequence of account ids on which `create_transfer` acquires
exclusive row locks (`with_for_update()`), in program order: the source
account is locked by the first query (src/main.py lines 108-110) and the
destination account by the second (lines 112-114). -/
def transfer_lock_order (transfer : TransferCreate) : List Nat :=
  [transfer.source_account_id, transfer.destination_account_id]

/-- The `with db.begin():` transaction scope shared by the three handlers:
a body that exits normally commits its new state; a body that raises rolls
the scope back, so the caller observes the error together with the
unchanged pre-state (src/main.py lines 105-163, 174-213, 224-268). -/
def run_scope (s : LedgerState)
    (body : Except ApiError (Transaction × LedgerState)) :
    Except ApiError Transaction × LedgerState :=
  match body with
  | .ok (txn, s') => (.ok txn, s')
  | .error e => (.error e, s)

/-- The `models.Transaction(type="transfer", status="completed", ...)` row
built at src/main.py lines 128-134. -/
def transfer_new_transaction (s : LedgerState) (transfer : TransferCreate) :
    Transaction :=
  { id := s.next_transaction_id
    type := "transfer"
    status := "completed"
    amount := transfer.amount
    currency := transfer.currency
    description := transfer.description }

/-- The debit `models.LedgerEntry` row of a transfer
(src/main.py lines 138-143). -/
def transfer_debit_entry (s : LedgerState) (transfer : TransferCreate) :
    LedgerEntry :=
  { id := s.next_entry_id
    transaction_id := s.next_transaction_id
    account_id := transfer.source_account_id
    entry_type := .debit
    amount := transfer.amount }

/-- The credit `models.LedgerEntry` row of a transfer
(src/main.py lines 144-149). -/
def transfer_credit_entry (s : LedgerState) (transfer : TransferCreate) :
    LedgerEntry :=
  { id := s.next_entry_id + 1
    transaction_id := s.next_transaction_id
    account_id := transfer.destination_account_id
    entry_type := .credit
    amount := transfer.amount }

/-- The committed state of a successful transfer: the transaction row plus
its two ledger entries are appended, the counters advance. -/
def transfer_commit_state (s : LedgerState) (transfer : TransferCreate) :
    LedgerState :=
  { s with
    transactions := s.transactions ++ [transfer_new_transaction s transfer]
    entries := s.entries ++
      [transfer_debit_entry s transfer, transfer_credit_entry s transfer]
    next_transaction_id := s.next_transaction_id + 1
    next_entry_id := s.next_entry_id + 2 }

/-- Body of the `with db.begin():` block of `create_transfer`
(src/main.py lines 106-156): lock source then destination, 404 if either is
missing, 400 on currency mismatch, 403 if the derived source balance is
below the amount, otherwise write the transaction row and its debit and
credit entries. -/
def transfer_body (s : LedgerState) (transfer : TransferCreate) :
    Except ApiError (Transaction × LedgerState) :=
  match find_account s transfer.source_account_id,
        find_account s transfer.destination_account_id with
  | some source_account, some dest_account =>
    if source_account.currency ≠ transfer.currency ∨
        dest_account.currency ≠ transfer.currency then
      .error .currency_mismatch
    else if calculate_account_balance s transfer.source_account_id <
        transfer.amount then
      .error .insufficient_funds
    else
      .ok (transfer_new_transaction s transfer, transfer_commit_state s transfer)
  | _, _ => .error .not_found

/-- Embedding of `create_transfer` (src/main.py lines 97-163). -/
def create_transfer (s : LedgerState) (transfer : TransferCreate) :
    Except ApiError Transaction × LedgerState :=
  run_scope s (transfer_body s transfer)

/-- The `models.Transaction(type="deposit", ...)` row built at
src/main.py lines 185-191. -/
def deposit_new_transaction (s : LedgerState) (deposit : TransferCreate) :
    Transaction :=
  { id := s.next_transaction_id
    type := "deposit"
    status := "completed"
    amount := deposit.amount
    currency := deposit.currency
    description := deposit.description }

/-- The single credit `models.LedgerEntry` row of a deposit
(src/main.py lines 195-200). -/
def deposit_credit_entry (s : LedgerState) (deposit : TransferCreate) :
    LedgerEntry :=
  { id := s.next_entry_id
    transaction_id := s.next_transaction_id
    account_id := deposit.destination_account_id
    entry_type := .credit
    amount := deposit.amount }

/-- The committed state of a successful deposit. -/
def deposit_commit_state (s : LedgerState) (deposit : TransferCreate) :
    LedgerState :=
  { s with
    transactions := s.transactions ++ [deposit_new_transaction s deposit]
    entries := s.entries ++ [deposit_credit_entry s deposit]
    next_transaction_id := s.next_transaction_id + 1
    next_entry_id := s.next_entry_id + 1 }

/-- Body of the `with db.begin():` block of `create_deposit`
(src/main.py lines 175-206): locks only the destination account, performs
no currency and no sufficiency check, writes a single credit entry. -/
def deposit_body (s : LedgerState) (deposit : TransferCreate) :
    Except ApiError (Transaction × LedgerState) :=
  match find_account s deposit.destination_account_id with
  | none => .error .not_found
  | some _ => .ok (deposit_new_transaction s deposit, deposit_commit_state s deposit)

/-- Embedding of `create_deposit` (src/main.py lines 166-213). -/
def create_deposit (s : LedgerState) (deposit : TransferCreate) :
    Except ApiError Transaction × LedgerState :=
  run_scope s (deposit_body s deposit)

/-- The `models.Transaction(type="withdrawal", ...)` row built at
src/main.py lines 240-246. -/
def withdrawal_new_transaction (s : LedgerState) (withdrawal : TransferCreate) :
    Transaction :=
  { id := s.next_transaction_id
    type := "withdrawal"
    status := "completed"
    amount := withdrawal.amount
    currency := withdrawal.currency
    description := withdrawal.description }

/-- The single debit `models.LedgerEntry` row of a withdrawal
(src/main.py lines 250-255). -/
def withdrawal_debit_entry (s : LedgerState) (withdrawal : TransferCreate) :
    LedgerEntry :=
  { id := s.next_entry_id
    transaction_id := s.next_transaction_id
    account_id := withdrawal.source_account_id
    entry_type := .debit
    amount := withdrawal.amount }

/-- The committed state of a successful withdrawal. -/
def withdrawal_commit_state (s : LedgerState) (withdrawal : TransferCreate) :
    LedgerState :=
  { s with
    transactions := s.transactions ++ [withdrawal_new_transaction s withdrawal]
    entries := s.entries ++ [withdrawal_debit_entry s withdrawal]
    next_transaction_id := s.next_transaction_id + 1
    next_entry_id := s.next_entry_id + 1 }

/-- Body of the `with db.begin():` block of `create_withdrawal`
(src/main.py lines 225-261): locks only the source account, checks
sufficiency against the derived balance, writes a single debit entry. -/
def withdrawal_body (s : LedgerState) (withdrawal : TransferCreate) :
    Except ApiError (Transaction × LedgerState) :=
  match find_account s withdrawal.source_account_id with
  | none => .error .not_found
  | some _ =>
    if calculate_account_balance s withdrawal.source_account_id <
        withdrawal.amount then
      .error .insufficient_funds
    else
      .ok (withdrawal_new_transaction s withdrawal,
        withdrawal_commit_state s withdrawal)

/-- Embedding of `create_withdrawal` (src/main.py lines 216-268). -/
def create_withdrawal (s : LedgerState) (withdrawal : TransferCreate) :
    Except ApiError Transaction × LedgerState :=
  run_scope s (withdrawal_body s withdrawal)

/-- Pydantic validation of `schemas.TransferCreate`
(src/schemas.py line 36): `amount: float = Field(..., gt=0)`. -/
def request_valid (t : TransferCreate) : Prop := 0 < t.amount

instance (t : TransferCreate) : Decidable (request_valid t) :=
  inferInstanceAs (Decidable (0 < t.amount))

/-- The POST /transfers/ endpoint: request-body validation runs before the
handler; an invalid body is rejected with 422 without touching the
database. -/
def post_transfers (s : LedgerState) (t : TransferCreate) :
    Except ApiError Transaction × LedgerState :=
  if request_valid t then create_transfer s t
  else (.error .validation_failed, s)

/-- The POST /deposits/ endpoint. -/
def post_deposits (s : LedgerState) (t : TransferCreate) :
    Except ApiError Transaction × LedgerState :=
  if request_valid t then create_deposit s t
  else (.error .validation_failed, s)

/-- The POST /withdrawals/ endpoint. -/
def post_withdrawals (s : LedgerState) (t : TransferCreate) :
    Except ApiError Transaction × LedgerState :=
  if request_valid t then create_withdrawal s t
  else (.error .validation_failed, s)

/-- One money-movement request against the API. -/
inductive Op where
  | transfer (t : TransferCreate)
  | deposit (t : TransferCreate)
  | withdrawal (t : TransferCreate)
deriving Repr, DecidableEq

/-- The state after one request (the result payload is discarded). -/
def apply_op (s : LedgerState) (op : Op) : LedgerState :=
  match op with
  | .transfer t => (post_transfers s t).2
  | .deposit t => (post_deposits s t).2
  | .withdrawal t => (post_withdrawals s t).2

/-- The state after a sequence of requests. -/
def run_ops (s : LedgerState) (ops : List Op) : LedgerState :=
  ops.foldl apply_op s

/-- A fresh database holding some accounts (created via POST /accounts/,
which writes no ledger entries and no transactions: src/main.py lines
40-58) and an empty ledger. -/
def init_state (accounts : List Account) : LedgerState :=
  { accounts := accounts
    transactions := []
    entries := []
    next_transaction_id := 1
    next_entry_id := 1 }

/-- The ledger entries belonging to one transaction (the
`Transaction.ledger_entries` relationship of src/models.py, keyed on the
`transaction_id` foreign key). -/
def entries_of_transaction (s : LedgerState) (txn_id : Nat) : List LedgerEntry :=
  s.entries.filter (fun e => e.transaction_id == txn_id)

/-- Sum of the amounts of the credit entries in a list. -/
def credit_sum (l : List LedgerEntry) : ℤ :=
  ((l.filter (fun e => e.entry_type == EntryType.credit)).map
    (fun e => e.amount)).sum

/-- Sum of the amounts of the debit entries in a list. -/
def debit_sum (l : List LedgerEntry) : ℤ :=
  ((l.filter (fun e => e.entry_type == EntryType.debit)).map
    (fun e => e.amount)).sum

/-! ## Lemmas about the balance fold -/

@[simp] lemma beq_debit_debit :
    (EntryType.debit == EntryType.debit) = true := rfl

@[simp] lemma beq_debit_credit :
    (EntryType.debit == EntryType.credit) = false := rfl

@[simp] lemma beq_credit_debit :
    (EntryType.credit == EntryType.debit) = false := rfl

@[simp] lemma beq_credit_credit :
    (EntryType.credit == EntryType.credit) = true := rfl

lemma foldl_balance_step_shift (l : List LedgerEntry) (b : ℤ) :
    l.foldl balance_step b = b + l.foldl balance_step 0 := by
  induction l generalizing b with
  | nil => simp
  | cons e t ih =>
    rw [List.foldl_cons, List.foldl_cons, ih (balance_step b e),
      ih (balance_step 0 e)]
    unfold balance_step
    cases e.entry_type <;> ring

lemma foldl_balance_eq_sums (l : List LedgerEntry) :
    l.foldl balance_step 0 = credit_sum l - debit_sum l := by
  induction l with
  | nil => simp [credit_sum, debit_sum]
  | cons e t ih =>
    rw [List.foldl_cons, foldl_balance_step_shift, ih]
    unfold credit_sum debit_sum balance_step
    obtain ⟨i, tid, aid, ty, amt⟩ := e
    cases ty <;> simp [List.filter_cons] <;> ring

lemma entries_balance_nil (a : Nat) : entries_balance [] a = 0 := rfl

lemma entries_balance_append (l₁ l₂ : List LedgerEntry) (a : Nat) :
    entries_balance (l₁ ++ l₂) a =
      entries_balance l₁ a + entries_balance l₂ a := by
  unfold entries_balance
  rw [List.filter_append, List.foldl_append, foldl_balance_step_shift]

lemma entries_balance_cons (e : LedgerEntry) (l : List LedgerEntry) (a : Nat) :
    entries_balance (e :: l) a =
      (if e.account_id = a then
        (match e.entry_type with | .credit => e.amount | .debit => -e.amount)
       else 0) + entries_balance l a := by
  unfold entries_balance
  by_cases h : e.account_id = a
  · rw [List.filter_cons_of_pos (by simp [h]), List.foldl_cons,
      foldl_balance_step_shift]
    unfold balance_step
    cases e.entry_type <;> simp [h]
  · rw [List.filter_cons_of_neg (by simp [h])]
    simp [h]

lemma entries_balance_single (e : LedgerEntry) (a : Nat) :
    entries_balance [e] a =
      (if e.account_id = a then
        (match e.entry_type with | .credit => e.amount | .debit => -e.amount)
       else 0) := by
  rw [entries_balance_cons, entries_balance_nil, add_zero]

/-! ## Lemmas about the transaction scope and the handler bodies -/

lemma run_scope_fst_error (s : LedgerState)
    (b : Except ApiError (Transaction × LedgerState)) (e : ApiError) :
    (run_scope s b).1 = .error e ↔ b = .error e := by
  cases b with
  | ok p => obtain ⟨txn, s'⟩ := p; simp [run_scope]
  | error e' => simp [run_scope]

lemma run_scope_error_snd (s : LedgerState)
    (b : Except ApiError (Transaction × LedgerState)) (e : ApiError)
    (h : (run_scope s b).1 = .error e) : (run_scope s b).2 = s := by
  cases b with
  | ok p => obtain ⟨txn, s'⟩ := p; simp [run_scope] at h
  | error e' => simp [run_scope]

lemma run_scope_ok (s : LedgerState) (txn : Transaction) (s' : LedgerState) :
    run_scope s (.ok (txn, s')) = (.ok txn, s') := rfl

/-- Inversion of a successful transfer body: both accounts exist with the
requested currency, the source balance covers the amount, and the result is
the committed transfer state. -/
lemma transfer_body_ok_inv {s : LedgerState} {t : TransferCreate}
    {txn : Transaction} {s' : LedgerState}
    (h : transfer_body s t = .ok (txn, s')) :
    (∃ sa da, find_account s t.source_account_id = some sa ∧
      find_account s t.destination_account_id = some da ∧
      sa.currency = t.currency ∧ da.currency = t.currency) ∧
    ¬ calculate_account_balance s t.source_account_id < t.amount ∧
    txn = transfer_new_transaction s t ∧ s' = transfer_commit_state s t := by
  unfold transfer_body at h
  cases hs : find_account s t.source_account_id with
  | none => rw [hs] at h; cases hd : find_account s t.destination_account_id <;>
      rw [hd] at h <;> simp at h
  | some sa =>
    rw [hs] at h
    cases hd : find_account s t.destination_account_id with
    | none => rw [hd] at h; simp at h
    | some da =>
      rw [hd] at h
      simp only [] at h
      split at h
      · simp at h
      · split at h
        · simp at h
        · rename_i hcur hbal
          obtain ⟨htxn, hstate⟩ := by
            simpa using h
          push_neg at hcur
          exact ⟨⟨sa, da, rfl, rfl, hcur.1, hcur.2⟩, hbal, htxn.symm, hstate.symm⟩

/-- Forward direction: on existing, currency-matching accounts with a
sufficient balance the transfer body commits. -/
lemma transfer_body_ok_of {s : LedgerState} {t : TransferCreate}
    {sa da : Account}
    (hs : find_account s t.source_account_id = some sa)
    (hd : find_account s t.destination_account_id = some da)
    (hcs : sa.currency = t.currency) (hcd : da.currency = t.currency)
    (hbal : ¬ calculate_account_balance s t.source_account_id < t.amount) :
    transfer_body s t =
      .ok (transfer_new_transaction s t, transfer_commit_state s t) := by
  unfold transfer_body
  rw [hs, hd]
  simp [hcs, hcd, hbal]

lemma transfer_commit_balance (s : LedgerState) (t : TransferCreate) (a : Nat) :
    calculate_account_balance (transfer_commit_state s t) a =
      calculate_account_balance s a
        + (if t.destination_account_id = a then t.amount else 0)
        - (if t.source_account_id = a then t.amount else 0) := by
  show entries_balance (s.entries ++
    [transfer_debit_entry s t, transfer_credit_entry s t]) a = _
  rw [entries_balance_append, entries_balance_cons, entries_balance_single]
  show entries_balance s.entries a +
    ((if t.source_account_id = a then -t.amount else 0) +
     (if t.destination_account_id = a then t.amount else 0)) = _
  unfold calculate_account_balance
  by_cases hs : t.source_account_id = a <;>
    by_cases hd : t.destination_account_id = a <;>
      simp [hs, hd] <;> ring

lemma deposit_commit_balance (s : LedgerState) (t : TransferCreate) (a : Nat) :
    calculate_account_balance (deposit_commit_state s t) a =
      calculate_account_balance s a
        + (if t.destination_account_id = a then t.amount else 0) := by
  show entries_balance (s.entries ++ [deposit_credit_entry s t]) a = _
  rw [entries_balance_append, entries_balance_single]
  show entries_balance s.entries a +
    (if t.destination_account_id = a then t.amount else 0) = _
  rfl

lemma withdrawal_commit_balance (s : LedgerState) (t : TransferCreate) (a : Nat) :
    calculate_account_balance (withdrawal_commit_state s t) a =
      calculate_account_balance s a
        - (if t.source_account_id = a then t.amount else 0) := by
  show entries_balance (s.entries ++ [withdrawal_debit_entry s t]) a = _
  rw [entries_balance_append, entries_balance_single]
  show entries_balance s.entries a +
    (if t.source_account_id = a then -t.amount else 0) = _
  unfold calculate_account_balance
  by_cases hs : t.source_account_id = a <;> simp [hs] <;> ring

lemma deposit_body_ok_inv {s : LedgerState} {t : TransferCreate}
    {txn : Transaction} {s' : LedgerState}
    (h : deposit_body s t = .ok (txn, s')) :
    (∃ da, find_account s t.destination_account_id = some da) ∧
    txn = deposit_new_transaction s t ∧ s' = deposit_commit_state s t := by
  unfold deposit_body at h
  cases hd : find_account s t.destination_account_id with
  | none => rw [hd] at h; simp at h
  | some da =>
    rw [hd] at h
    simp only [Except.ok.injEq, Prod.mk.injEq] at h
    exact ⟨⟨da, rfl⟩, h.1.symm, h.2.symm⟩

lemma deposit_body_ok_of {s : LedgerState} {t : TransferCreate} {da : Account}
    (hd : find_account s t.destination_account_id = some da) :
    deposit_body s t =
      .ok (deposit_new_transaction s t, deposit_commit_state s t) := by
  unfold deposit_body
  rw [hd]

lemma withdrawal_body_ok_inv {s : LedgerState} {t : TransferCreate}
    {txn : Transaction} {s' : LedgerState}
    (h : withdrawal_body s t = .ok (txn, s')) :
    (∃ sa, find_account s t.source_account_id = some sa) ∧
    ¬ calculate_account_balance s t.source_account_id < t.amount ∧
    txn = withdrawal_new_transaction s t ∧
    s' = withdrawal_commit_state s t := by
  unfold withdrawal_body at h
  cases hs : find_account s t.source_account_id with
  | none => rw [hs] at h; simp at h
  | some sa =>
    rw [hs] at h
    simp only [] at h
    split at h
    · exact Except.noConfusion h
    · rename_i hbal
      injection h with h2
      injection h2 with ha hb
      exact ⟨⟨sa, rfl⟩, hbal, ha.symm, hb.symm⟩

lemma withdrawal_body_ok_of {s : LedgerState} {t : TransferCreate}
    {sa : Account} (hs : find_account s t.source_account_id = some sa)
    (hbal : ¬ calculate_account_balance s t.source_account_id < t.amount) :
    withdrawal_body s t =
      .ok (withdrawal_new_transaction s t, withdrawal_commit_state s t) := by
  unfold withdrawal_body
  rw [hs]
  simp [hbal]

lemma transfer_insufficient_iff {s : LedgerState} {t : TransferCreate}
    {sa da : Account}
    (hs : find_account s t.source_account_id = some sa)
    (hd : find_account s t.destination_account_id = some da)
    (hcs : sa.currency = t.currency) (hcd : da.currency = t.currency) :
    transfer_body s t = .error .insufficient_funds ↔
      calculate_account_balance s t.source_account_id < t.amount := by
  unfold transfer_body
  rw [hs, hd]
  by_cases hb : calculate_account_balance s t.source_account_id < t.amount <;>
    simp [hcs, hcd, hb]

lemma transfer_mismatch_iff {s : LedgerState} {t : TransferCreate}
    {sa da : Account}
    (hs : find_account s t.source_account_id = some sa)
    (hd : find_account s t.destination_account_id = some da) :
    transfer_body s t = .error .currency_mismatch ↔
      (sa.currency ≠ t.currency ∨ da.currency ≠ t.currency) := by
  unfold transfer_body
  rw [hs, hd]
  by_cases hc : sa.currency ≠ t.currency ∨ da.currency ≠ t.currency
  · simp [hc]
  · by_cases hb : calculate_account_balance s t.source_account_id < t.amount <;>
      simp [hc, hb]

lemma withdrawal_insufficient_iff {s : LedgerState} {t : TransferCreate}
    {sa : Account} (hs : find_account s t.source_account_id = some sa) :
    withdrawal_body s t = .error .insufficient_funds ↔
      calculate_account_balance s t.source_account_id < t.amount := by
  unfold withdrawal_body
  rw [hs]
  by_cases hb : calculate_account_balance s t.source_account_id < t.amount <;>
    simp [hb]

lemma deposit_body_never_insufficient (s : LedgerState) (t : TransferCreate) :
    deposit_body s t ≠ .error .insufficient_funds := by
  intro h
  unfold deposit_body at h
  cases hd : find_account s t.destination_account_id with
  | none =>
    rw [hd] at h
    exact ApiError.noConfusion (Except.error.inj h)
  | some da =>
    rw [hd] at h
    simp at h

/-! ## Preservation lemmas for the system invariants -/

lemma post_transfers_nonneg (s : LedgerState) (t : TransferCreate)
    (h : ∀ a, 0 ≤ calculate_account_balance s a) :
    ∀ a, 0 ≤ calculate_account_balance (post_transfers s t).2 a := by
  unfold post_transfers
  by_cases hv : request_valid t
  · rw [if_pos hv]
    unfold create_transfer run_scope
    cases hb : transfer_body s t with
    | error e => exact h
    | ok p =>
      obtain ⟨txn0, s2⟩ := p
      obtain ⟨-, hbal, -, hstate⟩ := transfer_body_ok_inv hb
      intro a
      show 0 ≤ calculate_account_balance s2 a
      rw [hstate, transfer_commit_balance]
      have hamt : (0 : ℤ) < t.amount := hv
      have hsrc := not_lt.mp hbal
      by_cases hsa : t.source_account_id = a
      · by_cases hda : t.destination_account_id = a
        · rw [if_pos hsa, if_pos hda]; linarith [h a]
        · rw [if_pos hsa, if_neg hda]
          subst hsa
          linarith [hsrc]
      · by_cases hda : t.destination_account_id = a
        · rw [if_neg hsa, if_pos hda]; linarith [h a]
        · rw [if_neg hsa, if_neg hda]; simpa using h a
  · rw [if_neg hv]; exact h

lemma post_deposits_nonneg (s : LedgerState) (t : TransferCreate)
    (h : ∀ a, 0 ≤ calculate_account_balance s a) :
    ∀ a, 0 ≤ calculate_account_balance (post_deposits s t).2 a := by
  unfold post_deposits
  by_cases hv : request_valid t
  · rw [if_pos hv]
    unfold create_deposit run_scope
    cases hb : deposit_body s t with
    | error e => exact h
    | ok p =>
      obtain ⟨txn0, s2⟩ := p
      obtain ⟨-, -, hstate⟩ := deposit_body_ok_inv hb
      intro a
      show 0 ≤ calculate_account_balance s2 a
      rw [hstate, deposit_commit_balance]
      have hamt : (0 : ℤ) < t.amount := hv
      by_cases hda : t.destination_account_id = a
      · rw [if_pos hda]; linarith [h a]
      · rw [if_neg hda]; simpa using h a
  · rw [if_neg hv]; exact h

lemma post_withdrawals_nonneg (s : LedgerState) (t : TransferCreate)
    (h : ∀ a, 0 ≤ calculate_account_balance s a) :
    ∀ a, 0 ≤ calculate_account_balance (post_withdrawals s t).2 a := by
  unfold post_withdrawals
  by_cases hv : request_valid t
  · rw [if_pos hv]
    unfold create_withdrawal run_scope
    cases hb : withdrawal_body s t with
    | error e => exact h
    | ok p =>
      obtain ⟨txn0, s2⟩ := p
      obtain ⟨-, hbal, -, hstate⟩ := withdrawal_body_ok_inv hb
      intro a
      show 0 ≤ calculate_account_balance s2 a
      rw [hstate, withdrawal_commit_balance]
      have hsrc := not_lt.mp hbal
      by_cases hsa : t.source_account_id = a
      · rw [if_pos hsa]
        subst hsa
        linarith [hsrc]
      · rw [if_neg hsa]; simpa using h a
  · rw [if_neg hv]; exact h

lemma apply_op_nonneg (s : LedgerState) (op : Op)
    (h : ∀ a, 0 ≤ calculate_account_balance s a) :
    ∀ a, 0 ≤ calculate_account_balance (apply_op s op) a := by
  cases op with
  | transfer t => exact post_transfers_nonneg s t h
  | deposit t => exact post_deposits_nonneg s t h
  | withdrawal t => exact post_withdrawals_nonneg s t h

lemma run_ops_nonneg (ops : List Op) (s : LedgerState)
    (h : ∀ a, 0 ≤ calculate_account_balance s a) :
    ∀ a, 0 ≤ calculate_account_balance (run_ops s ops) a := by
  induction ops generalizing s with
  | nil => exact h
  | cons op rest ih => exact ih (apply_op s op) (apply_op_nonneg s op h)

lemma apply_op_txn_pos (s : LedgerState) (op : Op)
    (h : ∀ txn ∈ s.transactions, 0 < txn.amount) :
    ∀ txn ∈ (apply_op s op).transactions, 0 < txn.amount := by
  cases op with
  | transfer t =>
    show ∀ txn ∈ (post_transfers s t).2.transactions, 0 < txn.amount
    unfold post_transfers
    by_cases hv : request_valid t
    · rw [if_pos hv]
      unfold create_transfer run_scope
      cases hb : transfer_body s t with
      | error e => exact h
      | ok p =>
        obtain ⟨txn0, s2⟩ := p
        obtain ⟨-, -, -, hstate⟩ := transfer_body_ok_inv hb
        intro txn htxn
        show 0 < txn.amount
        rw [hstate] at htxn
        rcases List.mem_append.mp htxn with hmem | hmem
        · exact h txn hmem
        · have heq : txn = transfer_new_transaction s t := by simpa using hmem
          subst heq
          exact hv
    · rw [if_neg hv]; exact h
  | deposit t =>
    show ∀ txn ∈ (post_deposits s t).2.transactions, 0 < txn.amount
    unfold post_deposits
    by_cases hv : request_valid t
    · rw [if_pos hv]
      unfold create_deposit run_scope
      cases hb : deposit_body s t with
      | error e => exact h
      | ok p =>
        obtain ⟨txn0, s2⟩ := p
        obtain ⟨-, -, hstate⟩ := deposit_body_ok_inv hb
        intro txn htxn
        show 0 < txn.amount
        rw [hstate] at htxn
        rcases List.mem_append.mp htxn with hmem | hmem
        · exact h txn hmem
        · have heq : txn = deposit_new_transaction s t := by simpa using hmem
          subst heq
          exact hv
    · rw [if_neg hv]; exact h
  | withdrawal t =>
    show ∀ txn ∈ (post_withdrawals s t).2.transactions, 0 < txn.amount
    unfold post_withdrawals
    by_cases hv : request_valid t
    · rw [if_pos hv]
      unfold create_withdrawal run_scope
      cases hb : withdrawal_body s t with
      | error e => exact h
      | ok p =>
        obtain ⟨txn0, s2⟩ := p
        obtain ⟨-, -, -, hstate⟩ := withdrawal_body_ok_inv hb
        intro txn htxn
        show 0 < txn.amount
        rw [hstate] at htxn
        rcases List.mem_append.mp htxn with hmem | hmem
        · exact h txn hmem
        · have heq : txn = withdrawal_new_transaction s t := by simpa using hmem
          subst heq
          exact hv
    · rw [if_neg hv]; exact h

lemma run_ops_txn_pos (ops : List Op) (s : LedgerState)
    (h : ∀ txn ∈ s.transactions, 0 < txn.amount) :
    ∀ txn ∈ (run_ops s ops).transactions, 0 < txn.amount := by
  induction ops generalizing s with
  | nil => exact h
  | cons op rest ih => exact ih (apply_op s op) (apply_op_txn_pos s op h)

/-! ## Claim theorems -/

/-- C1: starting from an empty ledger, after any sequence of
Transfer/Withdrawal/Deposit operations every account's derived balance
(credit amounts minus debit amounts) is non-negative: the sufficiency
checks of `create_transfer` and `create_withdrawal` fail with
`insufficient_funds` rather than drive a balance below zero. -/
theorem no_overdraft (accounts : List Account) (ops : List Op) (a : Nat) :
    0 ≤ calculate_account_balance (run_ops (init_state accounts) ops) a :=
  run_ops_nonneg ops (init_state accounts) (fun _ => le_refl 0) a

/-- C2: for every ledger state and account, `calculate_account_balance`
returns the sum of the amounts of the credit entries referencing the
account minus the sum of the amounts of its debit entries; as a Lean
function of the state it is pure and deterministic. -/
theorem balance_is_credit_minus_debit (s : LedgerState) (account_id : Nat) :
    calculate_account_balance s account_id =
      credit_sum (s.entries.filter (fun e => e.account_id == account_id)) -
      debit_sum (s.entries.filter (fun e => e.account_id == account_id)) :=
  foldl_balance_eq_sums _

/-- C2 witness: the balance of account 7 under one credit of 5 and one
debit of 2 is the credit sum 5 minus the debit sum 2. -/
theorem balance_is_credit_minus_debit_witness :
    calculate_account_balance
      { accounts := []
        transactions := []
        entries :=
          [{ id := 1, transaction_id := 1, account_id := 7,
             entry_type := .credit, amount := 5 },
           { id := 2, transaction_id := 2, account_id := 7,
             entry_type := .debit, amount := 2 }]
        next_transaction_id := 3
        next_entry_id := 3 } 7 = 3 := by
  rw [balance_is_credit_minus_debit]
  decide

/-- C4: an operation that returns any error leaves the ledger state —
and hence every transaction row, ledger entry and derived balance —
exactly as it was: the `with db.begin()` scope of each handler is rolled
back on every raised exception, and all domain errors are raised before
any write. -/
theorem failed_op_state_unchanged (s : LedgerState) (t : TransferCreate)
    (e : ApiError) :
    ((post_transfers s t).1 = .error e → (post_transfers s t).2 = s) ∧
    ((post_deposits s t).1 = .error e → (post_deposits s t).2 = s) ∧
    ((post_withdrawals s t).1 = .error e → (post_withdrawals s t).2 = s) := by
  refine ⟨?_, ?_, ?_⟩ <;> intro h
  · unfold post_transfers at h ⊢
    by_cases hv : request_valid t
    · rw [if_pos hv] at h ⊢
      exact run_scope_error_snd s (transfer_body s t) e h
    · rw [if_neg hv]
  · unfold post_deposits at h ⊢
    by_cases hv : request_valid t
    · rw [if_pos hv] at h ⊢
      exact run_scope_error_snd s (deposit_body s t) e h
    · rw [if_neg hv]
  · unfold post_withdrawals at h ⊢
    by_cases hv : request_valid t
    · rw [if_pos hv] at h ⊢
      exact run_scope_error_snd s (withdrawal_body s t) e h
    · rw [if_neg hv]

/-- C4 witness: a transfer against an empty account table fails with 404
and leaves the (empty) initial state unchanged. -/
theorem failed_op_state_unchanged_witness :
    (post_transfers (init_state [])
      { source_account_id := 1, destination_account_id := 2, amount := 5,
        currency := "USD", description := none }).2 = init_state [] :=
  (failed_op_state_unchanged (init_state [])
    { source_account_id := 1, destination_account_id := 2, amount := 5,
      currency := "USD", description := none } .not_found).1 rfl

/-- C8: a request whose amount is zero or negative is rejected by the
pydantic schema validation before the handler (and hence before any lock,
balance read or write) with the state unchanged; consequently no reachable
ledger state contains a transaction with non-positive amount. -/
theorem nonpositive_amount_rejected :
    (∀ (s : LedgerState) (t : TransferCreate), ¬ 0 < t.amount →
      post_transfers s t = (.error .validation_failed, s) ∧
      post_deposits s t = (.error .validation_failed, s) ∧
      post_withdrawals s t = (.error .validation_failed, s)) ∧
    (∀ (accounts : List Account) (ops : List Op),
      ∀ txn ∈ (run_ops (init_state accounts) ops).transactions,
        0 < txn.amount) := by
  constructor
  · intro s t hneg
    have hv : ¬ request_valid t := hneg
    refine ⟨?_, ?_, ?_⟩
    · unfold post_transfers; rw [if_neg hv]
    · unfold post_deposits; rw [if_neg hv]
    · unfold post_withdrawals; rw [if_neg hv]
  · intro accounts ops
    exact run_ops_txn_pos ops (init_state accounts) (by intro txn htxn; cases htxn)

/-- C8 witness: a transfer, deposit and withdrawal request of amount -3 is
rejected with a validation error and the initial state is unchanged. -/
theorem nonpositive_amount_rejected_witness :
    post_transfers (init_state [])
      { source_account_id := 1, destination_account_id := 2, amount := -3,
        currency := "USD", description := none } =
      (.error .validation_failed, init_state []) ∧
    post_deposits (init_state [])
      { source_account_id := 1, destination_account_id := 2, amount := -3,
        currency := "USD", description := none } =
      (.error .validation_failed, init_state []) ∧
    post_withdrawals (init_state [])
      { source_account_id := 1, destination_account_id := 2, amount := -3,
        currency := "USD", description := none } =
      (.error .validation_failed, init_state []) :=
  nonpositive_amount_rejected.1 (init_state [])
    { source_account_id := 1, destination_account_id := 2, amount := -3,
      currency := "USD", description := none } (by decide)

/-- Primary keys are fresh: every stored ledger entry references a
transaction id below the auto-increment counter (what the database's
primary-key generation guarantees). -/
def txn_ids_fresh (s : LedgerState) : Prop :=
  ∀ e ∈ s.entries, e.transaction_id < s.next_transaction_id

instance (s : LedgerState) : Decidable (txn_ids_fresh s) :=
  inferInstanceAs
    (Decidable (∀ e ∈ s.entries, e.transaction_id < s.next_transaction_id))

lemma filter_fresh_nil {s : LedgerState} (h : txn_ids_fresh s) :
    s.entries.filter
      (fun e => e.transaction_id == s.next_transaction_id) = [] := by
  rw [List.filter_eq_nil_iff]
  intro e he
  simp only [beq_iff_eq]
  exact Nat.ne_of_lt (h e he)

lemma run_scope_ok_inv {s : LedgerState}
    {b : Except ApiError (Transaction × LedgerState)} {txn : Transaction}
    {s' : LedgerState} (h : run_scope s b = (.ok txn, s')) :
    b = .ok (txn, s') := by
  cases b with
  | error e =>
    injection h with h1 h2
    exact Except.noConfusion h1
  | ok p =>
    obtain ⟨t0, st0⟩ := p
    injection h with h1 h2
    injection h1 with h3
    rw [h3, h2]

/-- A concrete two-account ledger used to instantiate the theorems:
accounts 1 and 2 in USD, account 1 seeded with one credit of 10 written by
transaction 1. -/
def demo_state : LedgerState :=
  { accounts :=
      [{ id := 1, user_id := "u1", account_type := "checking",
         currency := "USD", status := "active" },
       { id := 2, user_id := "u2", account_type := "checking",
         currency := "USD", status := "active" }]
    transactions :=
      [{ id := 1, type := "deposit", status := "completed", amount := 10,
         currency := "USD", description := none }]
    entries :=
      [{ id := 1, transaction_id := 1, account_id := 1,
         entry_type := .credit, amount := 10 }]
    next_transaction_id := 2
    next_entry_id := 2 }

/-- A transfer of 4 from account 1 to account 2 in USD. -/
def demo_transfer : TransferCreate :=
  { source_account_id := 1, destination_account_id := 2, amount := 4,
    currency := "USD", description := none }

/-- C3: a successful transfer persists exactly two ledger entries for its
transaction — a debit on the source and a credit on the destination, both
of the requested amount, so the transaction's credit sum equals its debit
sum; a successful deposit persists exactly one credit entry and a
successful withdrawal exactly one debit entry of the requested amount. -/
theorem double_entry_rows :
    (∀ (s : LedgerState) (t : TransferCreate) (txn : Transaction)
        (s' : LedgerState), txn_ids_fresh s →
      create_transfer s t = (.ok txn, s') →
      entries_of_transaction s' txn.id =
        [transfer_debit_entry s t, transfer_credit_entry s t] ∧
      (transfer_debit_entry s t).entry_type = .debit ∧
      (transfer_debit_entry s t).account_id = t.source_account_id ∧
      (transfer_debit_entry s t).amount = t.amount ∧
      (transfer_credit_entry s t).entry_type = .credit ∧
      (transfer_credit_entry s t).account_id = t.destination_account_id ∧
      (transfer_credit_entry s t).amount = t.amount ∧
      credit_sum (entries_of_transaction s' txn.id) =
        debit_sum (entries_of_transaction s' txn.id)) ∧
    (∀ (s : LedgerState) (t : TransferCreate) (txn : Transaction)
        (s' : LedgerState), txn_ids_fresh s →
      create_deposit s t = (.ok txn, s') →
      entries_of_transaction s' txn.id = [deposit_credit_entry s t] ∧
      (deposit_credit_entry s t).entry_type = .credit ∧
      (deposit_credit_entry s t).account_id = t.destination_account_id ∧
      (deposit_credit_entry s t).amount = t.amount) ∧
    (∀ (s : LedgerState) (t : TransferCreate) (txn : Transaction)
        (s' : LedgerState), txn_ids_fresh s →
      create_withdrawal s t = (.ok txn, s') →
      entries_of_transaction s' txn.id = [withdrawal_debit_entry s t] ∧
      (withdrawal_debit_entry s t).entry_type = .debit ∧
      (withdrawal_debit_entry s t).account_id = t.source_account_id ∧
      (withdrawal_debit_entry s t).amount = t.amount) := by
  refine ⟨?_, ?_, ?_⟩
  · intro s t txn s' hfresh h
    have hb := run_scope_ok_inv h
    obtain ⟨-, -, htxn, hstate⟩ := transfer_body_ok_inv hb
    subst htxn
    subst hstate
    have hfil : entries_of_transaction (transfer_commit_state s t)
        ((transfer_new_transaction s t).id) =
        [transfer_debit_entry s t, transfer_credit_entry s t] := by
      show List.filter (fun e => e.transaction_id == s.next_transaction_id)
        (s.entries ++ [transfer_debit_entry s t, transfer_credit_entry s t]) = _
      rw [List.filter_append, filter_fresh_nil hfresh]
      simp [List.filter_cons, transfer_debit_entry, transfer_credit_entry]
    refine ⟨hfil, rfl, rfl, rfl, rfl, rfl, rfl, ?_⟩
    rw [hfil]
    simp [credit_sum, debit_sum, List.filter_cons,
      transfer_debit_entry, transfer_credit_entry]
  · intro s t txn s' hfresh h
    have hb := run_scope_ok_inv h
    obtain ⟨-, htxn, hstate⟩ := deposit_body_ok_inv hb
    subst htxn
    subst hstate
    refine ⟨?_, rfl, rfl, rfl⟩
    show List.filter (fun e => e.transaction_id == s.next_transaction_id)
      (s.entries ++ [deposit_credit_entry s t]) = _
    rw [List.filter_append, filter_fresh_nil hfresh]
    simp [List.filter_cons, deposit_credit_entry]
  · intro s t txn s' hfresh h
    have hb := run_scope_ok_inv h
    obtain ⟨-, -, htxn, hstate⟩ := withdrawal_body_ok_inv hb
    subst htxn
    subst hstate
    refine ⟨?_, rfl, rfl, rfl⟩
    show List.filter (fun e => e.transaction_id == s.next_transaction_id)
      (s.entries ++ [withdrawal_debit_entry s t]) = _
    rw [List.filter_append, filter_fresh_nil hfresh]
    simp [List.filter_cons, withdrawal_debit_entry]

/-- C3 witness: the transfer of 4 from account 1 to account 2 on the demo
ledger commits exactly its debit and credit rows as the entries of the new
transaction. -/
theorem double_entry_rows_witness :
    entries_of_transaction (transfer_commit_state demo_state demo_transfer)
        ((transfer_new_transaction demo_state demo_transfer).id) =
      [transfer_debit_entry demo_state demo_transfer,
       transfer_credit_entry demo_state demo_transfer] :=
  (double_entry_rows.1 demo_state demo_transfer
    (transfer_new_transaction demo_state demo_transfer)
    (transfer_commit_state demo_state demo_transfer)
    (by decide) rfl).1

/-- C5: on existing accounts (currency-matching for transfer), transfer and
withdrawal fail with `insufficient_funds` exactly when the derived source
balance is strictly below the requested amount — an amount exactly equal to
the balance succeeds — and a deposit can never fail with
`insufficient_funds`. -/
theorem insufficient_funds_iff :
    (∀ (s : LedgerState) (t : TransferCreate) (sa da : Account),
      find_account s t.source_account_id = some sa →
      find_account s t.destination_account_id = some da →
      sa.currency = t.currency → da.currency = t.currency →
      (((create_transfer s t).1 = .error .insufficient_funds) ↔
        calculate_account_balance s t.source_account_id < t.amount) ∧
      (calculate_account_balance s t.source_account_id = t.amount →
        (create_transfer s t).1 = .ok (transfer_new_transaction s t))) ∧
    (∀ (s : LedgerState) (t : TransferCreate) (sa : Account),
      find_account s t.source_account_id = some sa →
      (((create_withdrawal s t).1 = .error .insufficient_funds) ↔
        calculate_account_balance s t.source_account_id < t.amount) ∧
      (calculate_account_balance s t.source_account_id = t.amount →
        (create_withdrawal s t).1 = .ok (withdrawal_new_transaction s t))) ∧
    (∀ (s : LedgerState) (t : TransferCreate),
      (create_deposit s t).1 ≠ .error .insufficient_funds) := by
  refine ⟨?_, ?_, ?_⟩
  · intro s t sa da hs hd hcs hcd
    constructor
    · rw [show (create_transfer s t).1 =
          (run_scope s (transfer_body s t)).1 from rfl, run_scope_fst_error]
      exact transfer_insufficient_iff hs hd hcs hcd
    · intro hbal
      have hnb : ¬ calculate_account_balance s t.source_account_id <
          t.amount := by
        rw [hbal]; exact lt_irrefl _
      rw [show create_transfer s t =
          run_scope s (transfer_body s t) from rfl,
        transfer_body_ok_of hs hd hcs hcd hnb]
      rfl
  · intro s t sa hs
    constructor
    · rw [show (create_withdrawal s t).1 =
          (run_scope s (withdrawal_body s t)).1 from rfl, run_scope_fst_error]
      exact withdrawal_insufficient_iff hs
    · intro hbal
      have hnb : ¬ calculate_account_balance s t.source_account_id <
          t.amount := by
        rw [hbal]; exact lt_irrefl _
      rw [show create_withdrawal s t =
          run_scope s (withdrawal_body s t) from rfl,
        withdrawal_body_ok_of hs hnb]
      rfl
  · intro s t h
    have hb := (run_scope_fst_error s (deposit_body s t)
      .insufficient_funds).mp h
    exact deposit_body_never_insufficient s t hb

/-- C5 witness: on the demo ledger (balance of account 1 is 10) a transfer
of exactly 10 from account 1 to account 2 succeeds. -/
theorem insufficient_funds_iff_witness :
    (create_transfer demo_state
      { source_account_id := 1, destination_account_id := 2, amount := 10,
        currency := "USD", description := none }).1 =
    .ok (transfer_new_transaction demo_state
      { source_account_id := 1, destination_account_id := 2, amount := 10,
        currency := "USD", description := none }) :=
  ((insufficient_funds_iff.1 demo_state
    { source_account_id := 1, destination_account_id := 2, amount := 10,
      currency := "USD", description := none }
    { id := 1, user_id := "u1", account_type := "checking",
      currency := "USD", status := "active" }
    { id := 2, user_id := "u2", account_type := "checking",
      currency := "USD", status := "active" }
    rfl rfl rfl rfl).2) (by decide)

/-- C6: a transfer on two existing accounts fails with `currency_mismatch`
exactly when at least one account's currency differs from the requested
currency, and this failure leaves the state unchanged (it occurs before any
write); deposit and withdrawal perform no currency check — they succeed
regardless of the account's stored currency and record the requested
currency on the transaction row. -/
theorem currency_mismatch_transfer_only :
    (∀ (s : LedgerState) (t : TransferCreate) (sa da : Account),
      find_account s t.source_account_id = some sa →
      find_account s t.destination_account_id = some da →
      (((create_transfer s t).1 = .error .currency_mismatch) ↔
        (sa.currency ≠ t.currency ∨ da.currency ≠ t.currency)) ∧
      ((create_transfer s t).1 = .error .currency_mismatch →
        (create_transfer s t).2 = s)) ∧
    (∀ (s : LedgerState) (t : TransferCreate) (da : Account),
      find_account s t.destination_account_id = some da →
      (create_deposit s t).1 = .ok (deposit_new_transaction s t) ∧
      (deposit_new_transaction s t).currency = t.currency) ∧
    (∀ (s : LedgerState) (t : TransferCreate) (sa : Account),
      find_account s t.source_account_id = some sa →
      ¬ calculate_account_balance s t.source_account_id < t.amount →
      (create_withdrawal s t).1 = .ok (withdrawal_new_transaction s t) ∧
      (withdrawal_new_transaction s t).currency = t.currency) := by
  refine ⟨?_, ?_, ?_⟩
  · intro s t sa da hs hd
    constructor
    · rw [show (create_transfer s t).1 =
          (run_scope s (transfer_body s t)).1 from rfl, run_scope_fst_error]
      exact transfer_mismatch_iff hs hd
    · intro h
      exact run_scope_error_snd s (transfer_body s t) .currency_mismatch h
  · intro s t da hd
    refine ⟨?_, rfl⟩
    rw [show create_deposit s t = run_scope s (deposit_body s t) from rfl,
      deposit_body_ok_of hd]
    rfl
  · intro s t sa hs hnb
    refine ⟨?_, rfl⟩
    rw [show create_withdrawal s t =
        run_scope s (withdrawal_body s t) from rfl,
      withdrawal_body_ok_of hs hnb]
    rfl

/-- C6 witness: a deposit of 4 EUR into USD-denominated account 2 of the
demo ledger succeeds (no currency cross-check) and the transaction records
the requested currency EUR. -/
theorem currency_mismatch_transfer_only_witness :
    (create_deposit demo_state
      { source_account_id := 1, destination_account_id := 2, amount := 4,
        currency := "EUR", description := none }).1 =
    .ok (deposit_new_transaction demo_state
      { source_account_id := 1, destination_account_id := 2, amount := 4,
        currency := "EUR", description := none }) ∧
    (deposit_new_transaction demo_state
      { source_account_id := 1, destination_account_id := 2, amount := 4,
        currency := "EUR", description := none }).currency = "EUR" :=
  currency_mismatch_transfer_only.2.1 demo_state
    { source_account_id := 1, destination_account_id := 2, amount := 4,
      currency := "EUR", description := none }
    { id := 2, user_id := "u2", account_type := "checking",
      currency := "USD", status := "active" }
    rfl

/-- C7 counterexample: for the transfer request with source account 2 and
destination account 1 the code locks account 2 first, although account 1
has the smaller identifier — locks are not acquired in ascending-id
order. -/
theorem transfer_lock_order_not_ascending :
    transfer_lock_order
      { source_account_id := 2, destination_account_id := 1, amount := 5,
        currency := "USD", description := none } = [2, 1] ∧
    ((2 : Nat) :: 1 :: [] ≠ (1 : Nat) :: 2 :: []) ∧ (1 : Nat) < 2 :=
  ⟨rfl, by decide, by decide⟩

/-- C7 amended: `create_transfer` acquires the two row locks in request
order — always the source account first, then the destination — a fixed
deterministic order that is not the ascending-identifier order whenever the
destination id is smaller than the source id. -/
theorem transfer_lock_order_source_first (t : TransferCreate) :
    transfer_lock_order t =
      [t.source_account_id, t.destination_account_id] ∧
    (t.destination_account_id < t.source_account_id →
      transfer_lock_order t ≠
        [t.destination_account_id, t.source_account_id]) := by
  refine ⟨rfl, ?_⟩
  intro hlt heq
  have h1 : t.source_account_id = t.destination_account_id := by
    have h2 := congrArg (fun l => l.head?) heq
    simpa [transfer_lock_order] using h2
  omega

/-- C7 amended witness: for source 7 and destination 3 the lock order is
not the ascending order [3, 7]. -/
theorem transfer_lock_order_source_first_witness :
    transfer_lock_order
      { source_account_id := 7, destination_account_id := 3, amount := 1,
        currency := "USD", description := none } ≠ [3, 7] :=
  (transfer_lock_order_source_first
    { source_account_id := 7, destination_account_id := 3, amount := 1,
      currency := "USD", description := none }).2 (by decide)

/-- C9: a self-transfer (source = destination) is accepted by
`create_transfer`: it fails with `insufficient_funds` exactly when the
account's balance is below the amount, and on success it appends one debit
and one credit entry of the requested amount on that single account, so the
account's derived balance is unchanged. -/
theorem self_transfer_preserves_balance :
    ∀ (s : LedgerState) (t : TransferCreate) (a : Account),
      t.destination_account_id = t.source_account_id →
      find_account s t.source_account_id = some a →
      a.currency = t.currency →
      (((create_transfer s t).1 = .error .insufficient_funds) ↔
        calculate_account_balance s t.source_account_id < t.amount) ∧
      (∀ (txn : Transaction) (s' : LedgerState),
        create_transfer s t = (.ok txn, s') →
        s'.entries = s.entries ++
          [transfer_debit_entry s t, transfer_credit_entry s t] ∧
        (transfer_debit_entry s t).account_id = t.source_account_id ∧
        (transfer_credit_entry s t).account_id = t.source_account_id ∧
        (transfer_debit_entry s t).entry_type = .debit ∧
        (transfer_credit_entry s t).entry_type = .credit ∧
        (transfer_debit_entry s t).amount = t.amount ∧
        (transfer_credit_entry s t).amount = t.amount ∧
        calculate_account_balance s' t.source_account_id =
          calculate_account_balance s t.source_account_id) := by
  intro s t a hdst hsrc hcur
  have hd : find_account s t.destination_account_id = some a := by
    rw [hdst]; exact hsrc
  constructor
  · rw [show (create_transfer s t).1 =
        (run_scope s (transfer_body s t)).1 from rfl, run_scope_fst_error]
    exact transfer_insufficient_iff hsrc hd hcur hcur
  · intro txn s' h
    have hb := run_scope_ok_inv h
    obtain ⟨-, -, -, hstate⟩ := transfer_body_ok_inv hb
    subst hstate
    refine ⟨rfl, rfl, hdst, rfl, rfl, rfl, rfl, ?_⟩
    rw [transfer_commit_balance]
    simp [hdst]

/-- A self-transfer of 4 on account 1 in USD. -/
def demo_self_transfer : TransferCreate :=
  { source_account_id := 1, destination_account_id := 1, amount := 4,
    currency := "USD", description := none }

/-- C9 witness: the self-transfer of 4 on account 1 of the demo ledger
succeeds and leaves the balance of account 1 unchanged. -/
theorem self_transfer_preserves_balance_witness :
    calculate_account_balance
        (transfer_commit_state demo_state demo_self_transfer) 1 =
      calculate_account_balance demo_state 1 :=
  (((self_transfer_preserves_balance demo_state demo_self_transfer
    { id := 1, user_id := "u1", account_type := "checking",
      currency := "USD", status := "active" }
    rfl rfl rfl).2
    (transfer_new_transaction demo_state demo_self_transfer)
    (transfer_commit_state demo_state demo_self_transfer)
    rfl).2.2.2.2.2.2.2)

/-- C10: the outcome and the final state of a deposit do not depend on the
request's `source_account_id` field, and those of a withdrawal do not
depend on the request's `destination_account_id` field: two requests that
differ only in the respective unused field produce identical results and
identical states. -/
theorem unused_request_field_ignored :
    (∀ (s : LedgerState) (src1 src2 dst : Nat) (m : ℤ) (c : String)
        (d : Option String),
      post_deposits s
        { source_account_id := src1, destination_account_id := dst,
          amount := m, currency := c, description := d } =
      post_deposits s
        { source_account_id := src2, destination_account_id := dst,
          amount := m, currency := c, description := d }) ∧
    (∀ (s : LedgerState) (src dst1 dst2 : Nat) (m : ℤ) (c : String)
        (d : Option String),
      post_withdrawals s
        { source_account_id := src, destination_account_id := dst1,
          amount := m, currency := c, description := d } =
      post_withdrawals s
        { source_account_id := src, destination_account_id := dst2,
          amount := m, currency := c, description := d }) := by
  constructor
  · intro s src1 src2 dst m c d
    dsimp only [post_deposits, create_deposit, deposit_body, run_scope,
      request_valid, deposit_new_transaction, deposit_credit_entry,
      deposit_commit_state]
  · intro s src dst1 dst2 m c d
    dsimp only [post_withdrawals, create_withdrawal, withdrawal_body,
      run_scope, request_valid, withdrawal_new_transaction,
      withdrawal_debit_entry, withdrawal_commit_state,
      calculate_account_balance]
